import Mathlib

/-!
Verification of the burnout-calc repository's computational core,
embedded from src/src/components/BurnoutCalculator.tsx.

Numbers are modelled by the rationals: every constant in the source
(40, 8, 10, 3, 6, slider steps of 0.5 and 0.01-grained scores) is exact
in ℚ, and the arithmetic performed (add, sub, mul, div by nonzero
constants, min, max) is exact over these values.
-/

namespace BurnoutCalc

/-- The BurnoutInputs interface: the three numeric lifestyle inputs. -/
structure BurnoutInputs where
  hoursWorked : ℚ
  sleepHours : ℚ
  selfCareHours : ℚ
  deriving DecidableEq, Repr

/-- Embedding of calculateRiskScore: normalized workload, sleep deficit and
self-care deficit are combined in a weighted sum, divided by 10, clamped to
[0, 1] via Math.min(Math.max(score, 0), 1), and scaled to 0-10. -/
def calculateRiskScore (inputs : BurnoutInputs) : ℚ :=
  let workLoad := inputs.hoursWorked / 40
  let sleepDeficit := (8 - inputs.sleepHours) / 8
  let selfCareDeficit := (10 - inputs.selfCareHours) / 10
  let score := (workLoad * 4 + sleepDeficit * 3 + selfCareDeficit * 3) / 10
  min (max score 0) 1 * 10

/-- The object returned by getRiskLevel: a level label and a color class. -/
structure RiskLevelInfo where
  level : String
  color : String
  deriving DecidableEq, Repr

/-- Embedding of getRiskLevel: cascading if on score with thresholds 3 and 6,
boundary on the lower tier. -/
def getRiskLevel (score : ℚ) : RiskLevelInfo :=
  if score ≤ 3 then ⟨"Low", "text-sage-500"⟩
  else if score ≤ 6 then ⟨"Moderate", "text-orange-500"⟩
  else ⟨"High", "text-red-500"⟩

/-- Embedding of getBurnoutWindow: cascading if on score with the same
thresholds 3 and 6, returning a projection string. -/
def getBurnoutWindow (score : ℚ) : String :=
  if score ≤ 3 then "Low risk - maintain current balance"
  else if score ≤ 6 then "4-8 weeks if patterns continue"
  else "2-4 weeks if patterns continue"

/-- Spec-side definition of the scorer, written from the specification's
words (section 4.1): workLoad = hoursWorked/40, sleepDeficit = (8-sleep)/8,
selfCareDeficit = (10-selfCare)/10, rawScore = weighted sum over 10, clamped
to [0,1] and multiplied by 10. Used only to compare against the embedding
of the source. -/
def specRiskScore (hoursWorked sleepHours selfCareHours : ℚ) : ℚ :=
  min (max ((hoursWorked / 40 * 4 + (8 - sleepHours) / 8 * 3 +
    (10 - selfCareHours) / 10 * 3) / 10) 0) 1 * 10

/-- Unfolding lemma: the scorer on an explicit triple. -/
lemma calculateRiskScore_def (h s c : ℚ) :
    calculateRiskScore ⟨h, s, c⟩ =
      min (max ((h / 40 * 4 + (8 - s) / 8 * 3 + (10 - c) / 10 * 3) / 10) 0) 1
        * 10 := rfl

/-- Clamping then scaling is monotone. -/
lemma clamp_scale_mono {a b : ℚ} (hab : a ≤ b) :
    min (max a 0) 1 * 10 ≤ min (max b 0) 1 * 10 := by
  have h1 : min (max a 0) 1 ≤ min (max b 0) 1 :=
    min_le_min (max_le_max hab le_rfl) le_rfl
  linarith

/-- The default input tuple created at session start. -/
def defaultInputs : BurnoutInputs := ⟨40, 7, 5⟩

/-- UI state of the component: the inputs plus the showResults and isOpen
flags. -/
structure CalcState where
  inputs : BurnoutInputs
  showResults : Bool
  isOpen : Bool
  deriving DecidableEq, Repr

/-- The initial state: default inputs, editing mode, panel open. -/
def initialState : CalcState := ⟨defaultInputs, false, true⟩

/-- Embedding of handleCalculate: show results and collapse the panel. -/
def handleCalculate (s : CalcState) : CalcState :=
  { s with showResults := true, isOpen := false }

/-- Embedding of handleReset: restore default inputs, hide results, reopen
the panel. -/
def handleReset (_s : CalcState) : CalcState :=
  ⟨defaultInputs, false, true⟩

/-- The three slider-bound fields of BurnoutInputs. -/
inductive Field
  | hoursWorked
  | sleepHours
  | selfCareHours
  deriving DecidableEq, Repr

/-- Setting one field of the inputs, as setInputs with object spread does. -/
def setField (i : BurnoutInputs) (f : Field) (v : ℚ) : BurnoutInputs :=
  match f with
  | .hoursWorked => { i with hoursWorked := v }
  | .sleepHours => { i with sleepHours := v }
  | .selfCareHours => { i with selfCareHours := v }

/-- Embedding of a slider onValueChange handler: each slider is disabled
when showResults holds, and its handler additionally guards the mutation
with !showResults. -/
def sliderChange (s : CalcState) (f : Field) (v : ℚ) : CalcState :=
  if s.showResults then s
  else { s with inputs := setField s.inputs f v }

/-- The user events the component reacts to. -/
inductive Event
  | slider (f : Field) (v : ℚ)
  | calculate
  | reset
  deriving DecidableEq, Repr

/-- One step of the UI: dispatch an event to its handler. -/
def step (s : CalcState) : Event → CalcState
  | .slider f v => sliderChange s f v
  | .calculate => handleCalculate s
  | .reset => handleReset s

/-- C1: for every rational input triple, including values outside the stated
domain ranges, calculateRiskScore returns exactly the spec's formula: the
weighted sum (workLoad*4 + sleepDeficit*3 + selfCareDeficit*3)/10 clamped to
[0, 1] and multiplied by 10, with no rejection of out-of-range inputs. -/
theorem c1_score_formula (h s c : ℚ) :
    calculateRiskScore ⟨h, s, c⟩ = specRiskScore h s c := rfl

/-- C2: for every input triple the score lies in [0, 10], and the extreme
input (100, 0, 0) yields exactly 10. -/
theorem c2_score_range (h s c : ℚ) :
    0 ≤ calculateRiskScore ⟨h, s, c⟩ ∧ calculateRiskScore ⟨h, s, c⟩ ≤ 10 ∧
      calculateRiskScore ⟨100, 0, 0⟩ = 10 := by
  refine ⟨?_, ?_, ?_⟩
  · rw [calculateRiskScore_def]
    have h1 : (0:ℚ) ≤
        min (max ((h / 40 * 4 + (8 - s) / 8 * 3 + (10 - c) / 10 * 3) / 10) 0)
          1 :=
      le_min (le_max_right _ 0) (by norm_num)
    linarith
  · rw [calculateRiskScore_def]
    have h1 :
        min (max ((h / 40 * 4 + (8 - s) / 8 * 3 + (10 - c) / 10 * 3) / 10) 0)
          1 ≤ 1 :=
      min_le_right _ _
    linarith
  · norm_num [calculateRiskScore_def, min_def, max_def]

/-- C3 counterexample: at the baseline triple (40, 8, 10) the score is not 0:
the workload term alone contributes 40/40*4 = 4 to the weighted sum, so the
code returns 4. -/
theorem c3_baseline_counterexample : calculateRiskScore ⟨40, 8, 10⟩ ≠ 0 := by
  norm_num [calculateRiskScore_def, min_def, max_def]

/-- C3 amended: at the baseline triple (40, 8, 10), where the sleep and
self-care deficits are both zero, calculateRiskScore returns 4 (the workload
term 40/40*4 divided by 10 and rescaled), not 0. -/
theorem c3_baseline_score : calculateRiskScore ⟨40, 8, 10⟩ = 4 := by
  norm_num [calculateRiskScore_def, min_def, max_def]

/-- C4: the score is monotone in each input separately: nondecreasing in
hoursWorked, nonincreasing in sleepHours, nonincreasing in selfCareHours. -/
theorem c4_monotonicity (hw sl sc a b : ℚ) :
    (a ≤ b → calculateRiskScore ⟨a, sl, sc⟩ ≤ calculateRiskScore ⟨b, sl, sc⟩) ∧
    (a ≤ b → calculateRiskScore ⟨hw, b, sc⟩ ≤ calculateRiskScore ⟨hw, a, sc⟩) ∧
    (a ≤ b → calculateRiskScore ⟨hw, sl, b⟩ ≤ calculateRiskScore ⟨hw, sl, a⟩)
    := by
  refine ⟨fun hab => ?_, fun hab => ?_, fun hab => ?_⟩ <;>
    rw [calculateRiskScore_def, calculateRiskScore_def] <;>
    exact clamp_scale_mono (by linarith)

/-- C4 witness: concrete instances of each monotonicity direction. -/
theorem c4_monotonicity_witness :
    calculateRiskScore ⟨40, 7, 5⟩ ≤ calculateRiskScore ⟨50, 7, 5⟩ ∧
    calculateRiskScore ⟨40, 8, 5⟩ ≤ calculateRiskScore ⟨40, 7, 5⟩ ∧
    calculateRiskScore ⟨40, 7, 6⟩ ≤ calculateRiskScore ⟨40, 7, 5⟩ :=
  ⟨(c4_monotonicity 40 7 5 40 50).1 (by norm_num),
   (c4_monotonicity 40 7 5 7 8).2.1 (by norm_num),
   (c4_monotonicity 40 7 5 5 6).2.2 (by norm_num)⟩

/-- C5: getRiskLevel classifies with thresholds 3 and 6, boundary on the
lower tier: 3.0 is Low, 3.01 is Moderate, 6.0 is Moderate, 6.01 is High;
in general score ≤ 3 is Low, 3 < score ≤ 6 is Moderate, score > 6 is High. -/
theorem c5_risk_level_thresholds (q : ℚ) :
    (getRiskLevel 3).level = "Low" ∧
    (getRiskLevel (301/100)).level = "Moderate" ∧
    (getRiskLevel 6).level = "Moderate" ∧
    (getRiskLevel (601/100)).level = "High" ∧
    (q ≤ 3 → (getRiskLevel q).level = "Low") ∧
    (3 < q ∧ q ≤ 6 → (getRiskLevel q).level = "Moderate") ∧
    (6 < q → (getRiskLevel q).level = "High") := by
  refine ⟨?_, ?_, ?_, ?_, fun hq => ?_, fun hq => ?_, fun hq => ?_⟩
  · norm_num [getRiskLevel]
  · norm_num [getRiskLevel]
  · norm_num [getRiskLevel]
  · norm_num [getRiskLevel]
  · simp [getRiskLevel, hq]
  · simp only [getRiskLevel]
    rw [if_neg (by linarith [hq.1]), if_pos hq.2]
  · simp only [getRiskLevel]
    rw [if_neg (by linarith), if_neg (by linarith)]

/-- C5 witness: one concrete score in each tier, classified through the
general threshold clauses. -/
theorem c5_risk_level_thresholds_witness :
    (getRiskLevel 2).level = "Low" ∧
    (getRiskLevel 4).level = "Moderate" ∧
    (getRiskLevel 7).level = "High" :=
  ⟨(c5_risk_level_thresholds 2).2.2.2.2.1 (by norm_num),
   (c5_risk_level_thresholds 4).2.2.2.2.2.1 (by norm_num),
   (c5_risk_level_thresholds 7).2.2.2.2.2.2 (by norm_num)⟩

/-- C6: getBurnoutWindow maps score ≤ 3 to the low-risk string, 3 < score ≤ 6
to the 4-8 weeks string, and score > 6 to the 2-4 weeks string, using the
same thresholds as the risk-level classifier. -/
theorem c6_burnout_window (q : ℚ) :
    (q ≤ 3 → getBurnoutWindow q = "Low risk - maintain current balance") ∧
    (3 < q ∧ q ≤ 6 → getBurnoutWindow q = "4-8 weeks if patterns continue") ∧
    (6 < q → getBurnoutWindow q = "2-4 weeks if patterns continue") := by
  refine ⟨fun hq => ?_, fun hq => ?_, fun hq => ?_⟩
  · simp [getBurnoutWindow, hq]
  · simp only [getBurnoutWindow]
    rw [if_neg (by linarith [hq.1]), if_pos hq.2]
  · simp only [getBurnoutWindow]
    rw [if_neg (by linarith), if_neg (by linarith)]

/-- C6 witness: one concrete score in each tier mapped to its projection
string. -/
theorem c6_burnout_window_witness :
    getBurnoutWindow 2 = "Low risk - maintain current balance" ∧
    getBurnoutWindow 4 = "4-8 weeks if patterns continue" ∧
    getBurnoutWindow 7 = "2-4 weeks if patterns continue" :=
  ⟨(c6_burnout_window 2).1 (by norm_num),
   (c6_burnout_window 4).2.1 (by norm_num),
   (c6_burnout_window 7).2.2 (by norm_num)⟩

/-- C7: the two end-to-end examples: (60, 6, 2) scores 9.15, level High,
window "2-4 weeks if patterns continue"; (20, 9, 15) scores 0.125, level Low,
window "Low risk - maintain current balance". -/
theorem c7_end_to_end_examples :
    calculateRiskScore ⟨60, 6, 2⟩ = 915/100 ∧
    (getRiskLevel (calculateRiskScore ⟨60, 6, 2⟩)).level = "High" ∧
    getBurnoutWindow (calculateRiskScore ⟨60, 6, 2⟩) =
      "2-4 weeks if patterns continue" ∧
    calculateRiskScore ⟨20, 9, 15⟩ = 125/1000 ∧
    (getRiskLevel (calculateRiskScore ⟨20, 9, 15⟩)).level = "Low" ∧
    getBurnoutWindow (calculateRiskScore ⟨20, 9, 15⟩) =
      "Low risk - maintain current balance" := by
  norm_num [calculateRiskScore_def, getRiskLevel, getBurnoutWindow, min_def,
    max_def]

/-- C8: from any state, reset restores exactly the default tuple (40, 7, 5)
and returns to editing mode with the input panel reopened. -/
theorem c8_reset (s : CalcState) :
    (handleReset s).inputs = ⟨40, 7, 5⟩ ∧
    (handleReset s).showResults = false ∧
    (handleReset s).isOpen = true := ⟨rfl, rfl, rfl⟩

/-- C9: the UI is a two-state machine over showResults: any step that changes
the mode is either compute-and-freeze from editing or reset from results; and
while in results mode any non-reset event leaves the inputs unchanged and
stays in results mode. -/
theorem c9_two_state_machine (s : CalcState) (e : Event) :
    ((step s e).showResults ≠ s.showResults →
      (e = Event.calculate ∧ s.showResults = false ∧
        (step s e).showResults = true) ∨
      (e = Event.reset ∧ s.showResults = true ∧
        (step s e).showResults = false)) ∧
    (s.showResults = true → e ≠ Event.reset →
      (step s e).inputs = s.inputs ∧ (step s e).showResults = true) := by
  constructor
  · intro hne
    cases e with
    | slider f v =>
        exfalso
        apply hne
        simp only [step, sliderChange]
        split_ifs <;> rfl
    | calculate =>
        cases hb : s.showResults with
        | false => exact Or.inl ⟨rfl, rfl, rfl⟩
        | true =>
            exfalso
            apply hne
            simp [step, handleCalculate, hb]
    | reset =>
        cases hb : s.showResults with
        | false =>
            exfalso
            apply hne
            simp [step, handleReset, hb]
        | true => exact Or.inr ⟨rfl, rfl, rfl⟩
  · intro hres hne
    cases e with
    | slider f v => simp [step, sliderChange, hres]
    | calculate => simp [step, handleCalculate, hres]
    | reset => exact absurd rfl hne

/-- C9 witness: in results mode a slider event leaves the inputs and the mode
unchanged. -/
theorem c9_two_state_machine_witness :
    (step ⟨⟨50, 6, 3⟩, true, false⟩
        (Event.slider Field.hoursWorked 20)).inputs = ⟨50, 6, 3⟩ ∧
    (step ⟨⟨50, 6, 3⟩, true, false⟩
        (Event.slider Field.hoursWorked 20)).showResults = true :=
  (c9_two_state_machine ⟨⟨50, 6, 3⟩, true, false⟩
    (Event.slider Field.hoursWorked 20)).2 rfl (by simp)

/-- C10: for the default inputs (40, 7, 5) of the initial state, the score is
5.875 and the level is Moderate; the defaults yield neither a zero score nor
a Low classification. -/
theorem c10_default_score :
    calculateRiskScore initialState.inputs = 5875/1000 ∧
    (getRiskLevel (calculateRiskScore initialState.inputs)).level =
      "Moderate" ∧
    calculateRiskScore initialState.inputs ≠ 0 ∧
    (getRiskLevel (calculateRiskScore initialState.inputs)).level ≠ "Low"
    := by
  have hv : calculateRiskScore initialState.inputs = 5875/1000 := by
    norm_num [initialState, defaultInputs, calculateRiskScore_def, min_def,
      max_def]
  refine ⟨hv, ?_, ?_, ?_⟩
  · rw [hv]
    norm_num [getRiskLevel]
  · rw [hv]
    norm_num
  · rw [hv]
    norm_num [getRiskLevel]
    decide

end BurnoutCalc
